import Mathlib

set_option maxHeartbeats 1000000

/- Shallow embedding of the observability server core subsystems:
   dynamic query construction and validation (internal/database/clickhouse.go,
   ExecuteExploreQuery; services ValidateExploreRequest), the raw SQL gateway
   (internal/api/handlers/explore.go, ExecuteRawSQL), the typed row decoder
   (clickhouse.go, QueryRaw), the autocomplete engine (explore.go), and the
   log listing parameter handling (logs handler GetLogs).
   Strings are modelled at ASCII granularity: Go byte indexing and Lean
   character indexing coincide on the ASCII inputs considered here. -/

/-- Positional bound argument of a built query: a string or an integer. -/
inductive QArg
  | s (v : String)
  | i (v : Int)
 deriving DecidableEq, Repr

/-- ExploreRequest from internal/database/clickhouse.go. -/
structure ExploreRequest where
  database : String
  table : String
  fields : List String
  aggregate : String
  groupBy : List String
  orderBy : String
  orderDir : String
  filterBy : String
  filterOp : String
  filterVal : String
  limit : Int
 deriving DecidableEq, Repr

/-- Comma-joined field list, mirroring the Go loop that inserts ", " before
every element except the first. -/
def commaJoin (fields : List String) : String :=
  match fields with
  | [] => ""
  | f :: rest => rest.foldl (fun acc g => acc ++ ", " ++ g) f

/-- Suffix appended to an aggregate select clause for the group-by columns
(the Go loop appends ", field" for each). -/
def groupBySelectSuffix (gb : List String) : String :=
  gb.foldl (fun acc f => acc ++ ", " ++ f) ""

/-- The aggregate arm of the SELECT clause switch in ExecuteExploreQuery. -/
def aggSelect (agg f0 : String) : Except String String :=
  match agg with
  | "count" => .ok "COUNT(*) as count"
  | "sum" => .ok ("SUM(" ++ f0 ++ ") as sum_" ++ f0)
  | "avg" => .ok ("AVG(" ++ f0 ++ ") as avg_" ++ f0)
  | "min" => .ok ("MIN(" ++ f0 ++ ") as min_" ++ f0)
  | "max" => .ok ("MAX(" ++ f0 ++ ") as max_" ++ f0)
  | a => .error ("unsupported aggregate function: " ++ a)

/-- SELECT clause construction of ExecuteExploreQuery (clickhouse.go 278-315).
The aggregate branch is entered only when the aggregate is set AND the field
list is non-empty, exactly as in the source. -/
def selectClauseOf (req : ExploreRequest) : Except String String :=
  if req.aggregate ≠ "" ∧ req.fields.length > 0 then
    match aggSelect req.aggregate (req.fields.headD "") with
    | .error e => .error e
    | .ok sel => .ok (sel ++ groupBySelectSuffix req.groupBy)
  else if req.fields.isEmpty then .ok "*"
  else .ok (commaJoin req.fields)

/-- WHERE clause construction of ExecuteExploreQuery (clickhouse.go 322-345).
In the source argIndex is always 1 at this point (the filter is the first
bound parameter), so the placeholder is written $1 directly. -/
def whereClauseOf (req : ExploreRequest) : Except String (String × List QArg) :=
  if req.filterBy ≠ "" ∧ req.filterOp ≠ "" ∧ req.filterVal ≠ "" then
    match req.filterOp with
    | "eq" => .ok (" WHERE " ++ req.filterBy ++ " = $1", [QArg.s req.filterVal])
    | "ne" => .ok (" WHERE " ++ req.filterBy ++ " != $1", [QArg.s req.filterVal])
    | "gt" => .ok (" WHERE " ++ req.filterBy ++ " > $1", [QArg.s req.filterVal])
    | "lt" => .ok (" WHERE " ++ req.filterBy ++ " < $1", [QArg.s req.filterVal])
    | "gte" => .ok (" WHERE " ++ req.filterBy ++ " >= $1", [QArg.s req.filterVal])
    | "lte" => .ok (" WHERE " ++ req.filterBy ++ " <= $1", [QArg.s req.filterVal])
    | "like" => .ok (" WHERE " ++ req.filterBy ++ " LIKE $1",
        [QArg.s ("%" ++ req.filterVal ++ "%")])
    | op => .error ("unsupported filter operation: " ++ op)
  else .ok ("", [])

/-- GROUP BY clause (clickhouse.go 348-356). -/
def groupByClauseOf (req : ExploreRequest) : String :=
  if req.groupBy.isEmpty then "" else " GROUP BY " ++ commaJoin req.groupBy

/-- ORDER BY clause (clickhouse.go 358-365): direction DESC iff orderDir is
the string desc, otherwise ASC. -/
def orderByClauseOf (req : ExploreRequest) : String :=
  if req.orderBy ≠ "" then
    " ORDER BY " ++ req.orderBy ++ " " ++ (if req.orderDir = "desc" then "DESC" else "ASC")
  else ""

/-- SQL construction portion of ClickHouseClient.ExecuteExploreQuery
(clickhouse.go 273-375): produces the parameterized SQL text and the
positional argument list, or an error. The LIMIT parameter index is
one past the number of previously bound arguments, as in the source. -/
def buildExploreSQL (req : ExploreRequest) : Except String (String × List QArg) :=
  if req.database = "" ∨ req.table = "" then .error "database and table are required"
  else
    match selectClauseOf req with
    | .error e => .error e
    | .ok sel =>
      match whereClauseOf req with
      | .error e => .error e
      | .ok (wc, wargs) =>
        let base := "SELECT " ++ sel ++ " FROM " ++ req.database ++ "." ++ req.table
        let q := base ++ wc ++ groupByClauseOf req ++ orderByClauseOf req
        let limitVal : Int := if req.limit > 0 then req.limit else 1000
        .ok (q ++ " LIMIT $" ++ toString (wargs.length + 1), wargs ++ [QArg.i limitVal])

/-- Membership test of the valid aggregate set (services ValidateExploreRequest). -/
def validAggregate (a : String) : Bool :=
  a == "count" || a == "sum" || a == "avg" || a == "min" || a == "max"

/-- Membership test of the valid filter operation set. -/
def validFilterOp (op : String) : Bool :=
  op == "eq" || op == "ne" || op == "gt" || op == "lt" || op == "gte" ||
  op == "lte" || op == "like"

/-- ExploreService.ValidateExploreRequest from the services layer: the
sequential checks of the Go function, first failure wins. -/
def ValidateExploreRequest (req : ExploreRequest) : Except String Unit :=
  if req.database = "" then .error "database is required"
  else if req.table = "" then .error "table is required"
  else if req.aggregate ≠ "" ∧ ¬ validAggregate req.aggregate then
    .error ("invalid aggregate function: " ++ req.aggregate)
  else if req.aggregate ≠ "" ∧ req.aggregate ≠ "count" ∧ req.fields.isEmpty then
    .error ("fields are required for aggregate function: " ++ req.aggregate)
  else if req.filterOp ≠ "" ∧ ¬ validFilterOp req.filterOp then
    .error ("invalid filter operation: " ++ req.filterOp)
  else if req.filterOp ≠ "" ∧ (req.filterBy = "" ∨ req.filterVal = "") then
    .error "filter field and value are required when filter operation is specified"
  else if req.orderDir ≠ "" ∧ req.orderDir ≠ "asc" ∧ req.orderDir ≠ "desc" then
    .error ("invalid order direction: " ++ req.orderDir ++ " (must be \x27asc\x27 or \x27desc\x27)")
  else if req.limit < 0 then .error "limit cannot be negative"
  else if req.limit > 10000 then .error "limit cannot exceed 10000 rows"
  else .ok ()

/-- Spec-side operator mapping of the WHERE clause, as the text the claim
describes: eq, ne, gt, lt, gte, lte, like map to the SQL comparators
=, !=, >, <, >=, <=, LIKE, each with the single bound placeholder $1. -/
def filterOpClause (fb : String) : String → Option String
  | "eq" => some (" WHERE " ++ fb ++ " = $1")
  | "ne" => some (" WHERE " ++ fb ++ " != $1")
  | "gt" => some (" WHERE " ++ fb ++ " > $1")
  | "lt" => some (" WHERE " ++ fb ++ " < $1")
  | "gte" => some (" WHERE " ++ fb ++ " >= $1")
  | "lte" => some (" WHERE " ++ fb ++ " <= $1")
  | "like" => some (" WHERE " ++ fb ++ " LIKE $1")
  | _ => none

/-- Claim C1: evaluation of the builder at the spec example
(database default, table otel_logs, aggregate count, no fields).
Validation accepts the request (count deliberately needs no field), but the
builder requires a non-empty field list to enter its aggregate branch, so it
silently drops the aggregate and emits SELECT * instead of the
SELECT COUNT(*) AS count skeleton the claim states. -/
theorem c1_count_empty_fields :
    ValidateExploreRequest ⟨"default", "otel_logs", [], "count", [], "", "", "", "", "", 0⟩ =
      Except.ok () ∧
    buildExploreSQL ⟨"default", "otel_logs", [], "count", [], "", "", "", "", "", 0⟩ =
      Except.ok ("SELECT * FROM default.otel_logs LIMIT $1", [QArg.i 1000]) :=
  ⟨rfl, rfl⟩

/-- Claim C4 counterexample: a request whose filter triple is partially set
(filterBy is level, filterOp and filterVal empty) passes validation and
reaches query construction with the filter silently dropped: no WHERE clause
and no filter argument appear in the built SQL. -/
theorem c4_partial_filter_counterexample :
    ValidateExploreRequest ⟨"default", "t", [], "", [], "", "", "level", "", "", 0⟩ =
      Except.ok () ∧
    buildExploreSQL ⟨"default", "t", [], "", [], "", "", "level", "", "", 0⟩ =
      Except.ok ("SELECT * FROM default.t LIMIT $1", [QArg.i 1000]) :=
  ⟨rfl, rfl⟩

/-- Claim C4 as amended: validation rejects a partially set filter triple
only when filterOp is non-empty (missing filterBy or filterVal is then an
error); when filterOp is empty the request passes the filter check and the
builder emits no WHERE clause and binds no filter parameter (only the single
limit argument remains). -/
theorem c4_filter_validation :
    (∀ req : ExploreRequest, req.filterOp ≠ "" → (req.filterBy = "" ∨ req.filterVal = "") →
      ValidateExploreRequest req ≠ Except.ok ()) ∧
    (∀ (req : ExploreRequest) (sql : String) (args : List QArg), req.filterOp = "" →
      buildExploreSQL req = Except.ok (sql, args) →
      args = [QArg.i (if req.limit > 0 then req.limit else 1000)]) := by
  constructor
  · intro req hop hpart hok
    unfold ValidateExploreRequest at hok
    repeat' split at hok
    all_goals try exact Except.noConfusion hok
    rename_i hfilter _ _ _
    exact hfilter ⟨hop, hpart⟩
  · intro req sql args hop hok
    have hwhere : whereClauseOf req = Except.ok ("", []) := by
      unfold whereClauseOf
      rw [if_neg]
      rintro ⟨-, h2, -⟩
      exact h2 hop
    unfold buildExploreSQL at hok
    split at hok
    · exact Except.noConfusion hok
    split at hok
    · exact Except.noConfusion hok
    split at hok
    · exact Except.noConfusion hok
    rename_i x1 sel hsel x2 wc wargs heqw
    rw [hwhere] at heqw
    simp only [Except.ok.injEq, Prod.mk.injEq] at heqw hok
    obtain ⟨hwc, hwargs⟩ := heqw
    obtain ⟨hsql, hargs⟩ := hok
    subst hwargs
    simp at hargs
    exact hargs.symm

/-- Claim C5: a limit outside the range zero to ten thousand is rejected by
validation; whenever the builder succeeds it always emits a LIMIT clause
bound as the last positional parameter, binding the request limit when
positive and the hardcoded default 1000 otherwise. -/
theorem c5_limit_policy :
    (∀ req : ExploreRequest, (req.limit < 0 ∨ req.limit > 10000) →
      ValidateExploreRequest req ≠ Except.ok ()) ∧
    (∀ (req : ExploreRequest) (sql : String) (args : List QArg),
      buildExploreSQL req = Except.ok (sql, args) →
      args.getLast? = some (QArg.i (if req.limit > 0 then req.limit else 1000)) ∧
      ∃ pre, sql = pre ++ (" LIMIT $" ++ toString args.length)) := by
  constructor
  · intro req hlim hok
    unfold ValidateExploreRequest at hok
    repeat' split at hok
    all_goals first
      | exact Except.noConfusion hok
      | omega
  · intro req sql args hok
    unfold buildExploreSQL at hok
    split at hok
    · exact Except.noConfusion hok
    split at hok
    · exact Except.noConfusion hok
    split at hok
    · exact Except.noConfusion hok
    rename_i x1 sel hsel x2 wc wargs heqw
    simp only [Except.ok.injEq, Prod.mk.injEq] at hok
    obtain ⟨hsql, hargs⟩ := hok
    subst hsql
    subst hargs
    constructor
    · simp
    · refine ⟨"SELECT " ++ sel ++ " FROM " ++ req.database ++ "." ++ req.table ++ wc
        ++ groupByClauseOf req ++ orderByClauseOf req, ?_⟩
      simp [String.append_assoc, List.length_append]

/-- Claim C7: when the filter triple is fully present and the builder
succeeds, the operator is mapped to its SQL comparator with the single bound
placeholder, and exactly one filter argument is bound: the like operator
binds the value wrapped in percent signs and every other operator binds the
value verbatim, followed only by the limit argument. -/
theorem c7_filter_binding :
    ∀ (req : ExploreRequest) (sql : String) (args : List QArg),
      req.filterBy ≠ "" → req.filterOp ≠ "" → req.filterVal ≠ "" →
      buildExploreSQL req = Except.ok (sql, args) →
      ∃ wc, filterOpClause req.filterBy req.filterOp = some wc ∧
        (∃ pre post, sql = pre ++ wc ++ post) ∧
        args = [QArg.s (if req.filterOp = "like" then "%" ++ req.filterVal ++ "%"
                        else req.filterVal),
                QArg.i (if req.limit > 0 then req.limit else 1000)] := by
  intro req sql args hb ho hv hok
  unfold buildExploreSQL at hok
  split at hok
  · exact Except.noConfusion hok
  split at hok
  · exact Except.noConfusion hok
  split at hok
  · exact Except.noConfusion hok
  rename_i x1 sel hsel x2 wc wargs heqw
  simp only [Except.ok.injEq, Prod.mk.injEq] at hok
  obtain ⟨hsql, hargs⟩ := hok
  subst hsql
  subst hargs
  unfold whereClauseOf at heqw
  rw [if_pos ⟨hb, ho, hv⟩] at heqw
  split at heqw
  all_goals first
    | exact Except.noConfusion heqw
    | (rename_i hop
       simp only [Except.ok.injEq, Prod.mk.injEq] at heqw
       obtain ⟨hwc, hwargs⟩ := heqw
       subst hwc
       subst hwargs
       rw [hop]
       refine ⟨_, rfl, ⟨"SELECT " ++ sel ++ " FROM " ++ req.database ++ "." ++ req.table,
         groupByClauseOf req ++ orderByClauseOf req ++ " LIMIT $" ++ toString 2, ?_⟩,
         by simp⟩
       simp [String.append_assoc])

/-- Witness for the amended claim C4 at concrete inputs: filterOp eq with
empty filterBy and filterVal is rejected, and a request with empty filterOp
builds with only the limit argument. -/
theorem c4_filter_validation_witness :
    ValidateExploreRequest ⟨"d", "t", [], "", [], "", "", "", "eq", "", 0⟩ ≠ Except.ok () ∧
    [QArg.i 1000] = [QArg.i (if (0 : Int) > 0 then (0 : Int) else 1000)] := by
  constructor
  · exact c4_filter_validation.1 ⟨"d", "t", [], "", [], "", "", "", "eq", "", 0⟩
      (by decide) (Or.inl rfl)
  · exact c4_filter_validation.2 ⟨"default", "t", [], "", [], "", "", "level", "", "", 0⟩
      "SELECT * FROM default.t LIMIT $1" [QArg.i 1000] rfl rfl

/-- Witness for claim C5 at concrete inputs: a negative limit is rejected by
validation, and a zero limit builds with the default 1000 bound as the last
LIMIT parameter. -/
theorem c5_limit_policy_witness :
    ValidateExploreRequest ⟨"d", "t", [], "", [], "", "", "", "", "", -1⟩ ≠ Except.ok () ∧
    [QArg.i 1000].getLast? = some (QArg.i (if (0 : Int) > 0 then (0 : Int) else 1000)) := by
  constructor
  · exact c5_limit_policy.1 ⟨"d", "t", [], "", [], "", "", "", "", "", -1⟩ (Or.inl (by decide))
  · exact (c5_limit_policy.2 ⟨"default", "t", [], "", [], "", "", "", "", "", 0⟩
      "SELECT * FROM default.t LIMIT $1" [QArg.i 1000] rfl).1

/-- Witness for claim C7 at a concrete request: filter level eq error binds
the argument error verbatim, followed only by the limit argument, and the
built SQL carries the WHERE level = $1 clause. -/
theorem c7_filter_binding_witness :
    ∃ wc, filterOpClause "level" "eq" = some wc ∧
      (∃ pre post, "SELECT * FROM default.t WHERE level = $1 LIMIT $2" = pre ++ wc ++ post) ∧
      [QArg.s "error", QArg.i 1000] =
        [QArg.s (if "eq" = "like" then "%" ++ "error" ++ "%" else "error"),
         QArg.i (if (0 : Int) > 0 then (0 : Int) else 1000)] := by
  exact c7_filter_binding ⟨"default", "t", [], "", [], "", "", "level", "eq", "error", 0⟩
    "SELECT * FROM default.t WHERE level = $1 LIMIT $2" [QArg.s "error", QArg.i 1000]
    (by decide) (by decide) (by decide) rfl

/-- ASCII lowercase of a character (Go strings.ToLower restricted to the
ASCII inputs considered here). -/
def lowerChar (c : Char) : Char :=
  if 'A' ≤ c ∧ c ≤ 'Z' then Char.ofNat (c.toNat + 32) else c

/-- ASCII model of Go strings.ToLower. -/
def goToLower (s : String) : String :=
  String.mk (s.data.map lowerChar)

/-- ASCII whitespace test (Go unicode.IsSpace restricted to ASCII). -/
def isGoSpace (c : Char) : Bool :=
  c == ' ' || c == '\t' || c == '\n' || c == '\r' || c == '\x0b' || c == '\x0c'

/-- ASCII model of Go strings.TrimSpace: leading and trailing whitespace
removed. -/
def goTrimSpace (s : String) : String :=
  String.mk (((s.data.dropWhile isGoSpace).reverse.dropWhile isGoSpace).reverse)

/-- Go strings.HasPrefix on the modelled strings. -/
def strHasPre (s p : String) : Bool :=
  p.data.isPrefixOf s.data

/-- Outcome of the raw SQL handler: a 400 response with a message, or the
query text forwarded to the engine. -/
inductive RawOutcome
  | badRequest (msg : String)
  | forward (q : String)
 deriving DecidableEq, Repr

/-- The keyword-prefix blocklist of ExecuteRawSQL (explore.go 375-382): the
trimmed, lowercased statement is rejected when it starts with a mutating
keyword. -/
def isBlockedSQL (q : String) : Bool :=
  let ql := goToLower (goTrimSpace q)
  strHasPre ql "drop" || strHasPre ql "delete" || strHasPre ql "truncate" ||
  strHasPre ql "alter" || strHasPre ql "create" || strHasPre ql "insert" ||
  strHasPre ql "update"

/-- Decision logic of ExploreHandler.ExecuteRawSQL (explore.go 355-406):
required database and query, then the blocklist gate, then verbatim
forwarding of the original query text to QueryRaw. -/
def executeRawSQLGate (db q : String) : RawOutcome :=
  if db = "" then .badRequest "Database is required"
  else if q = "" then .badRequest "Query is required"
  else if isBlockedSQL q then .badRequest "Only SELECT queries are allowed"
  else .forward q

/-- Claim C6: with a database given, every non-empty raw SQL input whose
trimmed lowercased form starts with a blocklisted keyword is rejected with
the 400 message Only SELECT queries are allowed and is never forwarded,
and every non-empty input not matching the blocklist is forwarded verbatim
to the engine. -/
theorem c6_raw_sql_gate :
    ∀ db q : String, db ≠ "" → q ≠ "" →
      executeRawSQLGate db q =
        (if isBlockedSQL q then RawOutcome.badRequest "Only SELECT queries are allowed"
         else RawOutcome.forward q) := by
  intro db q hdb hq
  unfold executeRawSQLGate
  rw [if_neg hdb, if_neg hq]

/-- Witness for claim C6: DROP TABLE x is rejected with the exact message
of the spec example, and SELECT 1 is forwarded verbatim. -/
theorem c6_raw_sql_gate_witness :
    executeRawSQLGate "default" "DROP TABLE x" =
      RawOutcome.badRequest "Only SELECT queries are allowed" ∧
    executeRawSQLGate "default" "SELECT 1" = RawOutcome.forward "SELECT 1" := by
  constructor
  · rw [c6_raw_sql_gate "default" "DROP TABLE x" (by decide) (by decide)]
    rfl
  · rw [c6_raw_sql_gate "default" "SELECT 1" (by decide) (by decide)]
    rfl

/-- Decimal digit test used by the Atoi model. -/
def isDigitChar (c : Char) : Bool :=
  '0' ≤ c && c ≤ '9'

/-- Model of Go strconv.Atoi: optional sign, decimal digits only, error on
empty input, invalid characters, or overflow of the 64-bit int range. -/
def goAtoi (s : String) : Option Int :=
  match s.data with
  | [] => none
  | c :: rest =>
    let neg := c = '-'
    let digits := if c = '-' ∨ c = '+' then rest else c :: rest
    if digits = [] then none
    else if digits.all isDigitChar then
      let n : Int := digits.foldl (fun acc d => acc * 10 + (Int.ofNat (d.toNat - '0'.toNat))) 0
      let v : Int := if neg then -n else n
      if v < -(9223372036854775808 : Int) ∨ v > (9223372036854775807 : Int) then none
      else some v
    else none

/-- Limit computation of LogsHandler.GetLogs: starts at the default 100 and
is overridden only by a successfully parsed strictly positive value. -/
def logsLimitOf (limitStr : String) : Int :=
  if limitStr ≠ "" then
    match goAtoi limitStr with
    | none => 100
    | some v => if v ≤ 0 then 100 else v
  else 100

/-- Offset computation of LogsHandler.GetLogs: starts at the default 0 and
is overridden only by a successfully parsed non-negative value. -/
def logsOffsetOf (offsetStr : String) : Int :=
  if offsetStr ≠ "" then
    match goAtoi offsetStr with
    | none => 0
    | some v => if v < 0 then 0 else v
  else 0

/-- Limit and offset handling of LogsHandler.GetLogs (logs handler 52-76). -/
def getLogsParams (limitStr offsetStr : String) : Int × Int :=
  (logsLimitOf limitStr, logsOffsetOf offsetStr)

/-- Claim C10: for GET logs, a limit parameter that is absent, non-numeric,
or not strictly positive is silently replaced by 100, an offset parameter
that is absent, non-numeric, or negative is silently replaced by 0, and a
well-formed positive limit or non-negative offset is used as given; the
computation is total, so malformed values never reject the request. -/
theorem c10_logs_params :
    ∀ limitStr offsetStr : String,
      ((limitStr = "" ∨ goAtoi limitStr = none ∨
          (∃ v, goAtoi limitStr = some v ∧ v ≤ 0)) →
        (getLogsParams limitStr offsetStr).1 = 100) ∧
      (∀ v, goAtoi limitStr = some v → 0 < v → (getLogsParams limitStr offsetStr).1 = v) ∧
      ((offsetStr = "" ∨ goAtoi offsetStr = none ∨
          (∃ v, goAtoi offsetStr = some v ∧ v < 0)) →
        (getLogsParams limitStr offsetStr).2 = 0) ∧
      (∀ v, goAtoi offsetStr = some v → 0 ≤ v → (getLogsParams limitStr offsetStr).2 = v) := by
  intro limitStr offsetStr
  refine ⟨?_, ?_, ?_, ?_⟩
  · rintro (h | h | ⟨v, hv, hle⟩)
    · subst h
      rfl
    · show logsLimitOf limitStr = 100
      unfold logsLimitOf
      split
      · rw [h]
      · rfl
    · show logsLimitOf limitStr = 100
      unfold logsLimitOf
      split
      · rw [hv]
        exact if_pos hle
      · rfl
  · intro v hv hpos
    show logsLimitOf limitStr = v
    unfold logsLimitOf
    split
    · rw [hv]
      exact if_neg (by omega)
    · rename_i hne
      rw [not_not.mp hne] at hv
      exact Option.noConfusion hv
  · rintro (h | h | ⟨v, hv, hle⟩)
    · subst h
      rfl
    · show logsOffsetOf offsetStr = 0
      unfold logsOffsetOf
      split
      · rw [h]
      · rfl
    · show logsOffsetOf offsetStr = 0
      unfold logsOffsetOf
      split
      · rw [hv]
        exact if_pos hle
      · rfl
  · intro v hv hpos
    show logsOffsetOf offsetStr = v
    unfold logsOffsetOf
    split
    · rw [hv]
      exact if_neg (by omega)
    · rename_i hne
      rw [not_not.mp hne] at hv
      exact Option.noConfusion hv

/-- Witness for claim C10: a non-numeric limit and a negative offset are
silently replaced by the defaults 100 and 0. -/
theorem c10_logs_params_witness :
    getLogsParams "abc" "-5" = (100, 0) := by
  have h := c10_logs_params "abc" "-5"
  have h1 : (getLogsParams "abc" "-5").1 = 100 := h.1 (Or.inr (Or.inl (by decide)))
  have h2 : (getLogsParams "abc" "-5").2 = 0 :=
    h.2.2.1 (Or.inr (Or.inr ⟨-5, by decide, by decide⟩))
  exact Prod.ext h1 h2

/-- Calendar timestamp modelling a Go time.Time at second granularity in
UTC (sub-second precision and locations are not exercised by the claims).
The Go zero time is year 1, January 1, midnight. -/
structure GoTime where
  year : Nat
  month : Nat
  day : Nat
  hour : Nat
  minute : Nat
  second : Nat
 deriving DecidableEq, Repr

/-- Go time.Time.IsZero on the modelled timestamps. -/
def GoTime.isZero (t : GoTime) : Bool :=
  t.year == 1 && t.month == 1 && t.day == 1 &&
  t.hour == 0 && t.minute == 0 && t.second == 0

/-- Two-digit zero padding. -/
def pad2 (n : Nat) : String :=
  if n < 10 then "0" ++ toString n else toString n

/-- Four-digit zero padding for the year. -/
def pad4 (n : Nat) : String :=
  if n < 10 then "000" ++ toString n
  else if n < 100 then "00" ++ toString n
  else if n < 1000 then "0" ++ toString n
  else toString n

/-- Go t.Format(time.RFC3339) for a UTC timestamp at second granularity. -/
def GoTime.formatRFC3339 (t : GoTime) : String :=
  pad4 t.year ++ "-" ++ pad2 t.month ++ "-" ++ pad2 t.day ++ "T" ++
  pad2 t.hour ++ ":" ++ pad2 t.minute ++ ":" ++ pad2 t.second ++ "Z"

/-- Static type of the scan destination variable chosen for a column by the
typed decode path of QueryRaw (clickhouse.go 447-509). Go declares separate
string variables for String-family, UUID, Array and unknown columns, but
all of them have dynamic type string, which is what drives the later
extraction switch, so they share the str target here. -/
inductive ScanTarget
  | time
  | str
  | i8
  | i16
  | i32
  | i64
  | u8
  | u16
  | u32
  | u64
  | f32
  | f64
  | bool
  | map
 deriving DecidableEq, Repr

/-- The type-tag switch of QueryRaw (clickhouse.go 450-508), in source
order: the engine-declared column type name selects the scan target. -/
def scanTargetOf (typeName : String) : ScanTarget :=
  if strHasPre typeName "DateTime64" = true ∨ typeName = "DateTime" then .time
  else if typeName = "Date" then .time
  else if typeName = "String" ∨ strHasPre typeName "FixedString" = true ∨
      typeName = "LowCardinality(String)" then .str
  else if typeName = "Int8" then .i8
  else if typeName = "Int16" then .i16
  else if typeName = "Int32" then .i32
  else if typeName = "Int64" then .i64
  else if typeName = "UInt8" then .u8
  else if typeName = "UInt16" then .u16
  else if typeName = "UInt32" then .u32
  else if typeName = "UInt64" then .u64
  else if typeName = "Float32" then .f32
  else if typeName = "Float64" then .f64
  else if typeName = "Bool" then .bool
  else if typeName = "UUID" then .str
  else if strHasPre typeName "Array(" = true then .str
  else if strHasPre typeName "Map(" = true then .map
  else .str

/-- Runtime value held by a scan destination after a successful scan.
Integer payloads are carried as mathematical integers (range constraints of
the narrow Go types are not exercised by the claims); float payloads are
carried as their raw bit pattern, since floating point semantics are out of
scope; a Go nil map is the none case. -/
inductive GoValue
  | time (t : GoTime)
  | str (s : String)
  | i8 (n : Int)
  | i16 (n : Int)
  | i32 (n : Int)
  | i64 (n : Int)
  | u8 (n : Nat)
  | u16 (n : Nat)
  | u32 (n : Nat)
  | u64 (n : Nat)
  | f32 (bits : Nat)
  | f64 (bits : Nat)
  | bool (b : Bool)
  | map (m : Option (List (String × String)))
 deriving DecidableEq, Repr

/-- Transport-safe decoded value produced for one column of a result row. -/
inductive DecodedValue
  | null
  | str (s : String)
  | int (n : Int)
  | uint (n : Nat)
  | float (bits : Nat)
  | bool (b : Bool)
  | map (m : List (String × String))
 deriving DecidableEq, Repr

/-- The value-extraction switch of QueryRaw (clickhouse.go 521-566): a zero
time becomes null, otherwise its RFC3339 text; strings pass through
unchanged (empty strings stay empty strings); signed integers widen to a
signed value, unsigned to an unsigned value; a nil map becomes an empty
map, never null. -/
def extractValue : GoValue → DecodedValue
  | .time t => if t.isZero then .null else .str t.formatRFC3339
  | .str s => .str s
  | .i8 n => .int n
  | .i16 n => .int n
  | .i32 n => .int n
  | .i64 n => .int n
  | .u8 n => .uint n
  | .u16 n => .uint n
  | .u32 n => .uint n
  | .u64 n => .uint n
  | .f32 b => .float b
  | .f64 b => .float b
  | .bool b => .bool b
  | .map none => .map []
  | .map (some m) => .map m

/-- Heads of the modelled strings agree with the head of any prefix. -/
theorem strHasPre_head {s p : String} {c : Char} {cs : List Char}
    (hp : p.data = c :: cs) (h : strHasPre s p = true) :
    s.data.head? = some c := by
  unfold strHasPre at h
  rw [hp] at h
  cases hs : s.data with
  | nil => rw [hs] at h; exact Bool.noConfusion h
  | cons d ds =>
    rw [hs] at h
    simp only [List.isPrefixOf, Bool.and_eq_true, beq_iff_eq] at h
    rw [h.1]
    rfl

/-- Claim C8: every column whose engine type tag is DateTime64 prefixed,
DateTime, or Date is scanned into a timestamp target, a zero timestamp
decodes to null and a non-zero timestamp decodes to its RFC3339 text. -/
theorem c8_datetime_decode :
    ∀ typeName : String,
      (strHasPre typeName "DateTime64" = true ∨ typeName = "DateTime" ∨ typeName = "Date") →
      scanTargetOf typeName = ScanTarget.time ∧
      ∀ t : GoTime,
        (t.isZero = true → extractValue (.time t) = .null) ∧
        (t.isZero = false → extractValue (.time t) = .str t.formatRFC3339) := by
  intro typeName h
  constructor
  · rcases h with h | h | h
    · unfold scanTargetOf
      rw [if_pos (Or.inl h)]
    · subst h
      decide
    · subst h
      decide
  · intro t
    constructor
    · intro hz
      simp [extractValue, hz]
    · intro hz
      simp [extractValue, hz]

/-- Witness for claim C8: the tag DateTime64(3) selects the timestamp
target; a concrete non-zero timestamp decodes to its RFC3339 text and the
zero timestamp decodes to null. -/
theorem c8_datetime_decode_witness :
    scanTargetOf "DateTime64(3)" = ScanTarget.time ∧
    extractValue (.time ⟨2024, 1, 2, 3, 4, 5⟩) = .str "2024-01-02T03:04:05Z" ∧
    extractValue (.time ⟨1, 1, 1, 0, 0, 0⟩) = .null := by
  have h := c8_datetime_decode "DateTime64(3)" (Or.inl (by decide))
  refine ⟨h.1, ?_, ?_⟩
  · have h2 := (h.2 ⟨2024, 1, 2, 3, 4, 5⟩).2 (by decide)
    rw [h2]
    decide
  · exact (h.2 ⟨1, 1, 1, 0, 0, 0⟩).1 (by decide)

/-- Claim C9: string-family tags and Map tags never decode to null: a
String, FixedString or LowCardinality(String) column is scanned as a string
and an empty string stays the empty string, while a Map column is scanned
as a map and a nil map decodes to the empty map. -/
theorem c9_string_map_not_null :
    (∀ typeName : String,
      (typeName = "String" ∨ strHasPre typeName "FixedString" = true ∨
        typeName = "LowCardinality(String)") →
      scanTargetOf typeName = ScanTarget.str ∧
      ∀ s : String, extractValue (.str s) = .str s ∧ extractValue (.str s) ≠ .null) ∧
    (∀ typeName : String, strHasPre typeName "Map(" = true →
      scanTargetOf typeName = ScanTarget.map ∧
      (∀ m : Option (List (String × String)), extractValue (.map m) ≠ .null) ∧
      extractValue (.map none) = .map []) := by
  constructor
  · intro tn h
    refine ⟨?_, fun s => ⟨rfl, by simp [extractValue]⟩⟩
    rcases h with h | h | h
    · subst h
      decide
    · have hF : tn.data.head? = some 'F' :=
        @strHasPre_head tn "FixedString" 'F' "ixedString".data (by decide) h
      have hD : strHasPre tn "DateTime64" = false := by
        cases hb : strHasPre tn "DateTime64" with
        | false => rfl
        | true =>
          have hh := @strHasPre_head tn "DateTime64" 'D' "ateTime64".data (by decide) hb
          rw [hF] at hh
          exact absurd hh (by decide)
      have hxe : ∀ lit : String, strHasPre lit "FixedString" = false → tn ≠ lit := by
        intro lit hlit heq
        rw [heq] at h
        rw [h] at hlit
        exact Bool.noConfusion hlit
      unfold scanTargetOf
      rw [if_neg (fun hor => Or.elim hor
            (fun h1 => Bool.noConfusion (hD.symm.trans h1))
            (hxe "DateTime" (by decide))),
          if_neg (hxe "Date" (by decide)),
          if_pos (Or.inr (Or.inl h))]
    · subst h
      decide
  · intro tn h
    have hM : tn.data.head? = some 'M' :=
      @strHasPre_head tn "Map(" 'M' "ap(".data (by decide) h
    have hxe : ∀ lit : String, strHasPre lit "Map(" = false → tn ≠ lit := by
      intro lit hlit heq
      rw [heq] at h
      rw [h] at hlit
      exact Bool.noConfusion hlit
    have hD : strHasPre tn "DateTime64" = false := by
      cases hb : strHasPre tn "DateTime64" with
      | false => rfl
      | true =>
        have hh := @strHasPre_head tn "DateTime64" 'D' "ateTime64".data (by decide) hb
        rw [hM] at hh
        exact absurd hh (by decide)
    have hF : strHasPre tn "FixedString" = false := by
      cases hb : strHasPre tn "FixedString" with
      | false => rfl
      | true =>
        have hh := @strHasPre_head tn "FixedString" 'F' "ixedString".data (by decide) hb
        rw [hM] at hh
        exact absurd hh (by decide)
    have hA : strHasPre tn "Array(" = false := by
      cases hb : strHasPre tn "Array(" with
      | false => rfl
      | true =>
        have hh := @strHasPre_head tn "Array(" 'A' "rray(".data (by decide) hb
        rw [hM] at hh
        exact absurd hh (by decide)
    refine ⟨?_, fun m => by cases m <;> simp [extractValue], rfl⟩
    unfold scanTargetOf
    rw [if_neg (fun hor => Or.elim hor
          (fun h1 => Bool.noConfusion (hD.symm.trans h1))
          (hxe "DateTime" (by decide))),
        if_neg (hxe "Date" (by decide)),
        if_neg (fun hor => Or.elim hor (hxe "String" (by decide))
          (fun hor2 => Or.elim hor2
            (fun h1 => Bool.noConfusion (hF.symm.trans h1))
            (hxe "LowCardinality(String)" (by decide)))),
        if_neg (hxe "Int8" (by decide)),
        if_neg (hxe "Int16" (by decide)),
        if_neg (hxe "Int32" (by decide)),
        if_neg (hxe "Int64" (by decide)),
        if_neg (hxe "UInt8" (by decide)),
        if_neg (hxe "UInt16" (by decide)),
        if_neg (hxe "UInt32" (by decide)),
        if_neg (hxe "UInt64" (by decide)),
        if_neg (hxe "Float32" (by decide)),
        if_neg (hxe "Float64" (by decide)),
        if_neg (hxe "Bool" (by decide)),
        if_neg (hxe "UUID" (by decide)),
        if_neg (fun h1 => Bool.noConfusion (hA.symm.trans h1)),
        if_pos h]

/-- Witness for claim C9: the tag LowCardinality(String) is scanned as a
string and the empty string decodes to itself, and the tag
Map(String,String) is scanned as a map with the nil map decoding to the
empty map. -/
theorem c9_string_map_not_null_witness :
    (scanTargetOf "LowCardinality(String)" = ScanTarget.str ∧
      extractValue (.str "") = .str "" ∧ extractValue (.str "") ≠ .null) ∧
    (scanTargetOf "Map(String,String)" = ScanTarget.map ∧
      extractValue (.map none) = .map []) := by
  have h1 := c9_string_map_not_null.1 "LowCardinality(String)" (Or.inr (Or.inr rfl))
  have h2 := c9_string_map_not_null.2 "Map(String,String)" (by decide)
  exact ⟨⟨h1.1, (h1.2 "").1, (h1.2 "").2⟩, ⟨h2.1, h2.2.2⟩⟩

/-- Character class test of explore.go 350-352: ASCII letters and digits. -/
def isAlphaNumeric (c : Char) : Bool :=
  ('a' ≤ c && c ≤ 'z') || ('A' ≤ c && c ≤ 'Z') || ('0' ≤ c && c ≤ '9')

/-- Word characters of the token scanner: alphanumeric or underscore. -/
def isWordChar (c : Char) : Bool :=
  isAlphaNumeric c || c == '_'

/-- getWordAtPosition (explore.go 298-316): out-of-range positions yield the
empty token, otherwise the scanner extends left and right from the cursor
over word characters. -/
def getWordAtPosition (query : String) (position : Int) : String :=
  if position < 0 ∨ position > (query.length : Int) then ""
  else
    String.mk (((query.data.take position.toNat).reverse.takeWhile isWordChar).reverse ++
      (query.data.drop position.toNat).takeWhile isWordChar)

/-- Go string slicing s[:i]: defined only for 0 ≤ i ≤ len(s); outside that
range the Go runtime panics, modelled as none. -/
def goSliceTo (s : String) (i : Int) : Option String :=
  if 0 ≤ i ∧ i ≤ (s.length : Int) then some (String.mk (s.data.take i.toNat)) else none

/-- First index of a substring occurrence, as Go strings.Index but over the
modelled character lists (none when absent). -/
def indexOfSub (needle : List Char) : List Char → Option Nat
  | [] => if needle.isPrefixOf [] then some 0 else none
  | c :: t =>
    if needle.isPrefixOf (c :: t) then some 0
    else (indexOfSub needle t).map (fun i => i + 1)

/-- Go strings.LastIndex: index of the last occurrence, -1 when absent. -/
def lastIndexOfSub (needle hay : List Char) : Int :=
  match indexOfSub needle.reverse hay.reverse with
  | none => -1
  | some i => (hay.length : Int) - (needle.length : Int) - (i : Int)

/-- shouldSuggestTables (explore.go 319-326): slices the text before the
cursor WITHOUT a bounds check, so an out-of-range position is a runtime
panic (none); otherwise true iff the prefix contains from or join. -/
def shouldSuggestTables (query : String) (position : Int) : Option Bool :=
  match goSliceTo query position with
  | none => none
  | some pre =>
    some (decide (0 ≤ lastIndexOfSub "from".data pre.data) ||
          decide (0 ≤ lastIndexOfSub "join".data pre.data))

/-- getTableFromQuery (explore.go 329-347): first occurrence of from, then
the first whitespace-delimited word after it, else the empty string. -/
def getTableFromQuery (query : String) : String :=
  match indexOfSub "from".data query.data with
  | none => ""
  | some fromIndex =>
    String.mk (((query.data.drop (fromIndex + 4)).dropWhile isGoSpace).takeWhile
      (fun c => !isGoSpace c))

/-- The fixed SQL keyword list of getAutocompleteSuggestions (explore.go
240-245). -/
def sqlKeywords : List String :=
  ["SELECT", "FROM", "WHERE", "GROUP BY", "ORDER BY", "HAVING", "LIMIT", "OFFSET",
   "JOIN", "LEFT JOIN", "RIGHT JOIN", "INNER JOIN", "OUTER JOIN", "FULL JOIN",
   "ON", "AND", "OR", "NOT", "IN", "LIKE", "BETWEEN", "IS", "NULL", "TRUE", "FALSE",
   "COUNT", "SUM", "AVG", "MIN", "MAX", "DISTINCT", "AS", "ASC", "DESC"]

/-- TableField from internal/database/clickhouse.go. -/
structure TableField where
  name : String
  type : String
 deriving DecidableEq, Repr

/-- The schema introspection collaborator as seen by the autocomplete
engine: table and field listings per database, with none modelling a failed
engine call (whose pass is silently skipped). -/
structure SchemaDB where
  tables : String → Option (List String)
  fields : String → String → Option (List TableField)

/-- AutocompleteSuggestion from explore.go (text, type, description). -/
structure AutocompleteSuggestion where
  text : String
  type : String
  description : String
 deriving DecidableEq, Repr

/-- Keyword pass (explore.go 247-255): case-insensitive prefix match of the
token against every keyword. -/
def keywordPass (word : String) : List AutocompleteSuggestion :=
  sqlKeywords.filterMap (fun k =>
    if strHasPre (goToLower k) (goToLower word) then
      some ⟨k, "keyword", "SQL keyword"⟩
    else none)

/-- Table pass (explore.go 258-271): only when triggered; a failed table
listing is silently skipped. -/
def tablePass (db : SchemaDB) (dbName word : String) (trigger : Bool) :
    List AutocompleteSuggestion :=
  if trigger then
    match db.tables dbName with
    | none => []
    | some ts => ts.filterMap (fun t =>
        if strHasPre (goToLower t) (goToLower word) then
          some ⟨t, "table", "Table in " ++ dbName ++ " database"⟩
        else none)
  else []

/-- Column pass (explore.go 274-287): only when a table name can be
extracted from the query; a failed field listing is silently skipped. -/
def columnPass (db : SchemaDB) (dbName query word : String) :
    List AutocompleteSuggestion :=
  if getTableFromQuery query ≠ "" then
    match db.fields dbName (getTableFromQuery query) with
    | none => []
    | some fs => fs.filterMap (fun f =>
        if strHasPre (goToLower f.name) (goToLower word) then
          some ⟨f.name, "column",
            "Column (" ++ f.type ++ ") in " ++ dbName ++ "." ++ getTableFromQuery query⟩
        else none)
  else []

/-- Final cap of the suggestion list (explore.go 290-292): lists longer
than 20 are cut to their first 20 entries. -/
def truncate20 (l : List AutocompleteSuggestion) : List AutocompleteSuggestion :=
  if l.length > 20 then l.take 20 else l

/-- getAutocompleteSuggestions (explore.go 230-295): lowercase the query,
extract the token at the cursor, run the keyword, table and column passes
in that order, and truncate the concatenation to 20 entries. The
shouldSuggestTables call slices the raw position, so an out-of-range
position panics (none) before anything is returned. -/
def getAutocompleteSuggestions (db : SchemaDB) (dbName queryRaw : String) (position : Int) :
    Option (List AutocompleteSuggestion) :=
  match shouldSuggestTables (goToLower queryRaw) position with
  | none => none
  | some trigger =>
    some (truncate20 (keywordPass (getWordAtPosition queryRaw position) ++
      tablePass db dbName (getWordAtPosition queryRaw position) trigger ++
      columnPass db dbName (goToLower queryRaw) (getWordAtPosition queryRaw position)))

/-- The cap always behaves as a plain take of 20 elements. -/
theorem truncate20_eq_take (l : List AutocompleteSuggestion) : truncate20 l = l.take 20 := by
  unfold truncate20
  split
  · rfl
  · exact (List.take_of_length_le (by omega)).symm

/-- A concrete schema with one table and no field listing, used to evaluate
the autocomplete pipeline at concrete inputs. -/
def sampleSchema : SchemaDB :=
  ⟨fun _ => some ["otel_logs"], fun _ _ => some []⟩

/-- Claim C3: evaluation at an out-of-range cursor. The token extractor is
guarded and returns the empty token, but the table-context check slices the
text at the raw position without a bounds check, so the Go runtime panics
(modelled as none) and no suggestion sequence is returned. -/
theorem c3_out_of_range_panic :
    getWordAtPosition "SELECT * FROM " 100 = "" ∧
    shouldSuggestTables (goToLower "SELECT * FROM ") 100 = none ∧
    getAutocompleteSuggestions sampleSchema "default" "SELECT * FROM " 100 = none ∧
    getAutocompleteSuggestions sampleSchema "default" "SELECT * FROM " (-1) = none := by
  refine ⟨by decide, by decide, ?_, ?_⟩ <;> rfl

/-- Claim C2 counterexample: with a schema containing the single table
otel_logs, autocomplete on SELECT * FROM with the cursor at the end (14)
triggers the table pass, yet no otel_logs suggestion appears in the
returned list: the empty token matches all 34 keywords, which fill the
20-entry cap before any table suggestion. -/
theorem c2_tables_lost_to_cap :
    shouldSuggestTables (goToLower "SELECT * FROM ") 14 = some true ∧
    ((getAutocompleteSuggestions sampleSchema "default" "SELECT * FROM " 14).getD []).all
      (fun s => s.text != "otel_logs") = true := by
  exact ⟨by decide, by decide⟩

/-- Claim C2 as amended: every returned suggestion list is the
concatenation of the keyword, table and column passes in that order,
truncated to at most 20 entries; for SELECT * FROM with the cursor at the
end the table pass triggers and every table of the schema appears in the
concatenation BEFORE truncation (the empty token matches every table), but
the 20-entry cap applied after concatenation can cut table suggestions
away. -/
theorem c2_suggestion_assembly :
    (∀ (db : SchemaDB) (dbName q : String) (pos : Int) (l : List AutocompleteSuggestion),
      getAutocompleteSuggestions db dbName q pos = some l →
      ∃ trigger, shouldSuggestTables (goToLower q) pos = some trigger ∧
        l = (keywordPass (getWordAtPosition q pos) ++
             tablePass db dbName (getWordAtPosition q pos) trigger ++
             columnPass db dbName (goToLower q) (getWordAtPosition q pos)).take 20 ∧
        l.length ≤ 20) ∧
    (∀ (db : SchemaDB) (dbName : String) (ts : List String), db.tables dbName = some ts →
      ∀ t ∈ ts,
        (⟨t, "table", "Table in " ++ dbName ++ " database"⟩ : AutocompleteSuggestion) ∈
          keywordPass (getWordAtPosition "SELECT * FROM " 14) ++
          tablePass db dbName (getWordAtPosition "SELECT * FROM " 14) true ++
          columnPass db dbName (goToLower "SELECT * FROM ")
            (getWordAtPosition "SELECT * FROM " 14)) := by
  constructor
  · intro db dbName q pos l h
    unfold getAutocompleteSuggestions at h
    split at h
    · exact Option.noConfusion h
    · rename_i trigger htrig
      have hl := (Option.some.inj h).symm
      rw [truncate20_eq_take] at hl
      refine ⟨trigger, htrig, hl, ?_⟩
      rw [hl]
      simp [List.length_take]
  · intro db dbName ts hts t htmem
    have hword : getWordAtPosition "SELECT * FROM " 14 = "" := by decide
    rw [hword]
    have hpre : strHasPre (goToLower t) (goToLower "") = true := by
      simp [strHasPre, goToLower, List.isPrefixOf]
    have htp : (⟨t, "table", "Table in " ++ dbName ++ " database"⟩ : AutocompleteSuggestion) ∈
        tablePass db dbName "" true := by
      unfold tablePass
      rw [if_pos rfl, hts]
      exact List.mem_filterMap.2 ⟨t, htmem, by rw [if_pos hpre]⟩
    exact List.mem_append.2 (Or.inl (List.mem_append.2 (Or.inr htp)))

/-- Witness for the amended claim C2 at concrete inputs: the concrete
result for the sample schema is some list equal to the capped
concatenation, and the otel_logs table suggestion is a member of the
pre-truncation concatenation. -/
theorem c2_suggestion_assembly_witness :
    (∃ trigger, shouldSuggestTables (goToLower "SELECT * FROM ") 14 = some trigger ∧
      (getAutocompleteSuggestions sampleSchema "default" "SELECT * FROM " 14).getD [] =
        (keywordPass (getWordAtPosition "SELECT * FROM " 14) ++
         tablePass sampleSchema "default" (getWordAtPosition "SELECT * FROM " 14) trigger ++
         columnPass sampleSchema "default" (goToLower "SELECT * FROM ")
           (getWordAtPosition "SELECT * FROM " 14)).take 20 ∧
      ((getAutocompleteSuggestions sampleSchema "default" "SELECT * FROM " 14).getD []).length ≤ 20) ∧
    (⟨"otel_logs", "table", "Table in default database"⟩ : AutocompleteSuggestion) ∈
      keywordPass (getWordAtPosition "SELECT * FROM " 14) ++
      tablePass sampleSchema "default" (getWordAtPosition "SELECT * FROM " 14) true ++
      columnPass sampleSchema "default" (goToLower "SELECT * FROM ")
        (getWordAtPosition "SELECT * FROM " 14) := by
  constructor
  · obtain ⟨trigger, h1, h2, h3⟩ := c2_suggestion_assembly.1 sampleSchema "default"
      "SELECT * FROM " 14 ((getAutocompleteSuggestions sampleSchema "default"
        "SELECT * FROM " 14).getD []) (by decide)
    exact ⟨trigger, h1, h2, h3⟩
  · exact c2_suggestion_assembly.2 sampleSchema "default" ["otel_logs"] rfl "otel_logs"
      (List.mem_singleton.2 rfl)
